import Mathlib

/-!
Verification of the bug-classifier upload pipeline (`src/app.py`).

The script is a single linear pipeline run once per uploaded file:
parse (csv/excel) → retry parse with `skiprows=2` when `Details` is missing →
explicit missing-column check → `dropna` on `Details` → `astype(str)` →
`Bug ID` derivation → classifier (predict / predict_proba) → result
composition → pie chart → bar chart → result table, the whole body wrapped
in one `try/except` whose handler shows a single formatted error message.

Shallow embedding choices:
* a pandas `DataFrame` is a column-major association list
  `List (String × List Cell)`; duplicate column labels are representable,
  as in pandas, and single-label access takes the first matching column;
* cells are an inductive type (`null` for NaN, strings, ints, rationals);
* the pre-trained model and vectorizer are opaque external artifacts: the
  composite `predict ∘ transform` is a parameter that either yields numeric
  class codes or string labels for each text, and `predict_proba ∘ transform`
  yields a per-row list of rational probabilities (the vectorized numpy
  calls are rendered per row, elementwise);
* every parse call (`read_csv`, `read_excel`) is an `Option Table` input:
  `none` models the parser raising;
* the run result is an `Output` record listing, in program order, what was
  rendered to the page before the run ended (columns echo, predictions,
  pie aggregate, bar aggregate, result table) and which error message, if
  any, was shown (`st.error`).
-/

namespace BugApp

/-- A cell of the loaded table: pandas NaN (`null`), a string, an integer,
or a rational number (used for confidence scores). -/
inductive Cell where
  | null
  | str (s : String)
  | int (n : Int)
  | rat (q : ℚ)
deriving DecidableEq, Repr

/-- `pd.isna` on a cell: only the NaN cell is null. -/
def Cell.isNull : Cell → Bool
  | .null => true
  | _ => false

/-- Python `str(...)` on a cell, as used by `astype(str)`.
pandas renders NaN as the string "nan". -/
def cellToStr : Cell → String
  | .null => "nan"
  | .str s => s
  | .int n => toString n
  | .rat q => toString q

/-- A pandas DataFrame, column-major: an ordered list of named columns.
Duplicate labels are allowed, exactly as in pandas. -/
abbrev Table := List (String × List Cell)

/-- `df.columns`: the list of column labels, in order. -/
def header (t : Table) : List String := t.map Prod.fst

/-- Python `str.strip()`: remove leading and trailing whitespace
(written out over the character sequence). -/
def stripStr (s : String) : String :=
  ⟨((s.data.dropWhile Char.isWhitespace).reverse.dropWhile Char.isWhitespace).reverse⟩

/-- Python `str.lower()` (written out over the character sequence). -/
def lowerStr (s : String) : String :=
  ⟨s.data.map Char.toLower⟩

/-- `df.columns.str.strip()`: trim whitespace from every column label. -/
def stripCols (t : Table) : Table := t.map (fun c => (stripStr c.1, c.2))

/-- `df[name]` for a single label: the first column with that label. -/
def getCol (t : Table) (n : String) : Option (List Cell) :=
  (t.find? (fun c => c.1 == n)).map Prod.snd

/-- `getCol` with an empty-column default (used only where the pipeline has
already established that the column exists). -/
def getColD (t : Table) (n : String) : List Cell := (getCol t n).getD []

/-- `df[name] = values`: replace the first column with that label, or append
a new column at the end when the label is absent (pandas keeps column
position on assignment and appends new columns on the right). -/
def setCol : Table → String → List Cell → Table
  | [], n, vs => [(n, vs)]
  | c :: rest, n, vs => if c.1 == n then (n, vs) :: rest else c :: setCol rest n vs

/-- `df.rename(columns={old: nw})`: relabel every column named `old`. -/
def renameCol (t : Table) (old nw : String) : Table :=
  t.map (fun c => if c.1 == old then (nw, c.2) else c)

/-- Keep the cells whose mask bit is `true` (a pandas boolean row filter,
applied to one column). -/
def applyMask : List Cell → List Bool → List Cell
  | [], _ => []
  | _, [] => []
  | c :: cs, b :: bs => if b then c :: applyMask cs bs else applyMask cs bs

/-- A pandas boolean row filter applied to the whole frame. -/
def filterRows (t : Table) (mask : List Bool) : Table :=
  t.map (fun c => (c.1, applyMask c.2 mask))

/-- `len(df)`: the number of rows (the length of the first column;
0 for a frame with no columns). -/
def nRows : Table → Nat
  | [] => 0
  | c :: _ => c.2.length

/-- The row mask of `df.dropna(subset=["Details"])`: keep rows whose
`Details` cell is not NaN. -/
def detailsMask (t : Table) : List Bool :=
  (getColD t "Details").map (fun c => !c.isNull)

/-- `df = df.dropna(subset=["Details"])`. -/
def dropnaDetails (t : Table) : Table := filterRows t (detailsMask t)

/-- `df["Details"] = df["Details"].astype(str)`. -/
def astypeStrDetails (t : Table) : Table :=
  setCol t "Details" ((getColD t "Details").map (fun c => Cell.str (cellToStr c)))

/-- Lines 44-47 of `app.py`: rename `S.No` to `Bug ID` when present, else
synthesize `Bug ID` as `range(1, len(df) + 1)` when absent. -/
def deriveBugId (t : Table) : Table :=
  if (header t).contains "S.No" then renameCol t "S.No" "Bug ID"
  else if (header t).contains "Bug ID" then t
  else setCol t "Bug ID" ((List.range (nRows t)).map (fun i => Cell.int ((i : Int) + 1)))

/-- The pre-trained model's `predict` output over the text column: by dtype
it is either numeric class codes or string labels for the whole array
(`pd.api.types.is_numeric_dtype(preds)` branches on the array dtype). -/
inductive ModelOut where
  | nums (f : String → Int)
  | strs (f : String → String)

/-- The opaque classifier artifacts (`model`, `vectorizer`), collapsed into
the two capabilities the script uses on each text: `predict ∘ transform`
and `predict_proba ∘ transform` (one probability list per row). -/
structure Classifier where
  modelOut : ModelOut
  proba : String → List ℚ

/-- Line 56: `category_map = {0: "UI", 1: "API", 2: "DB", 3: "Server", 4: "Other"}`. -/
def category_map : List (Int × String) :=
  [(0, "UI"), (1, "API"), (2, "DB"), (3, "Server"), (4, "Other")]

/-- `category_map.get(int(p), str(p))`: look the code up in the fixed map,
falling back to its string form. -/
def mapCategory (n : Int) : String :=
  ((category_map.find? (fun p => p.1 == n)).map Prod.snd).getD (toString n)

/-- Lines 57-60: the `Predicted Category` cell for one row. -/
def predictedCell (clf : Classifier) (s : String) : Cell :=
  match clf.modelOut with
  | .nums f => .str (mapCategory (f s))
  | .strs f => .str (f s)

/-- `row.max()`: the maximum of one row of `predict_proba` output
(numpy never takes the max of an empty row; the default 0 is unreachable
for a model with at least one class). -/
def rowMax : List ℚ → ℚ
  | [] => 0
  | p :: ps => ps.foldl max p

/-- Python 3 `round` to an integer: round half to even. -/
def pyRound (q : ℚ) : ℤ :=
  if q - ⌊q⌋ < 1 / 2 then ⌊q⌋
  else if 1 / 2 < q - ⌊q⌋ then ⌊q⌋ + 1
  else if Even ⌊q⌋ then ⌊q⌋ else ⌊q⌋ + 1

/-- `round(p, 2)`: round to 2 decimal places. -/
def round2 (q : ℚ) : ℚ := (pyRound (q * 100) : ℚ) / 100

/-- Line 62: the `Confidence Score` cell for one row — the maximum class
probability rounded to 2 decimals. -/
def confidenceCell (clf : Classifier) (s : String) : Cell :=
  .rat (round2 (rowMax (clf.proba s)))

/-- The text column fed to the classifier: `df["Details"]` as strings. -/
def detailsStrsOf (t : Table) : List String :=
  (getColD t "Details").map cellToStr

/-- Lines 51-62: attach `Predicted Category` and `Confidence Score`,
computed row-by-row from the `Details` text. -/
def addPredictions (clf : Classifier) (t : Table) : Table :=
  setCol (setCol t "Predicted Category" ((detailsStrsOf t).map (predictedCell clf)))
    "Confidence Score" ((detailsStrsOf t).map (confidenceCell clf))

/-- Lines 65-68: `Logic-level Issue` is the existing `Logical_Issue` column
when present, else the constant sentinel "N/A". -/
def addLogicIssue (t : Table) : Table :=
  if (header t).contains "Logical_Issue" then
    setCol t "Logic-level Issue" (getColD t "Logical_Issue")
  else
    setCol t "Logic-level Issue" (List.replicate (nRows t) (Cell.str "N/A"))

/-- The full composed frame after lines 40-68: filter, coerce, derive the
identifier, classify, and merge the composed columns. -/
def composeFrame (clf : Classifier) (t : Table) : Table :=
  addLogicIssue (addPredictions clf (deriveBugId (astypeStrDetails (dropnaDetails t))))

/-- `value_counts()` on a column: each distinct non-NaN value (in order of
first appearance) paired with its number of occurrences. (pandas sorts the
result by descending count; the claims use it only as a value → count map,
so the listing order is abstracted.) -/
def distinctVals (l : List Cell) : List Cell :=
  l.foldl (fun acc c => if c ∈ acc then acc else acc ++ [c]) []

/-- `column.value_counts()` as an association list. -/
def valueCounts (l : List Cell) : List (Cell × Nat) :=
  (distinctVals (l.filter (fun c => !c.isNull))).map (fun v => (v, l.count v))

/-- Line 94's boolean row filter:
`df['Logical_Issue'].astype(str).str.lower() == 'yes'`. -/
def logicYesMask (liCol : List Cell) : List Bool :=
  liCol.map (fun c => lowerStr (cellToStr c) == "yes")

/-- Line 100: the columns of the displayed result table. -/
def table_cols : List String :=
  ["Bug ID", "Details", "Predicted Category", "Logic-level Issue", "Confidence Score"]

/-- `df[cols]` for a list of labels: for each requested label, every column
carrying that label, in frame order (pandas returns all matches when a
label is duplicated). -/
def selectCols (t : Table) (ns : List String) : Table :=
  ns.flatMap (fun n => t.filter (fun c => c.1 == n))

/-- An exception raised inside the `try` block. -/
inductive Exc where
  | parseError
  | keyError (col : String)
deriving DecidableEq, Repr

/-- The single error message a run can show: the explicit missing-`Details`
`st.error` of line 38, or line 104's formatted `st.error(f"❌ Error: {e}")`. -/
inductive ErrMsg where
  | missingDetails
  | exception (e : Exc)
deriving DecidableEq, Repr

/-- Everything one run renders to the page, in program order, plus the error
message shown (if any). A `none` surface was never rendered. `preds` records
whether `model.predict` ran and what it produced. -/
structure Output where
  shownCols : Option (List String) := none
  err : Option ErrMsg := none
  preds : Option (List Cell) := none
  pie : Option (List (Cell × Nat)) := none
  bar : Option (List (Cell × Nat)) := none
  table : Option Table := none
deriving DecidableEq, Repr

/-- Lines 40-101: the body of the `else` branch, after `Details` has been
found. Raises (returns an `err`) at the first missing optional column,
keeping every surface rendered before that point, exactly as the script
does inside its single `try`. -/
def processTable (clf : Classifier) (df1 : Table) (shown : List String) : Output :=
  let df7 := composeFrame clf df1
  let predCells := (detailsStrsOf (deriveBugId (astypeStrDetails (dropnaDetails df1)))).map
    (predictedCell clf)
  match getCol df7 "bug_type" with
  | none =>
    { shownCols := some shown, preds := some predCells,
      err := some (.exception (.keyError "bug_type")) }
  | some btCol =>
    let pieC := valueCounts btCol
    match getCol df7 "Logical_Issue" with
    | none =>
      { shownCols := some shown, preds := some predCells, pie := some pieC,
        err := some (.exception (.keyError "Logical_Issue")) }
    | some liCol =>
      let logicBugs := filterRows df7 (logicYesMask liCol)
      let barC := valueCounts (getColD logicBugs "bug_type")
      { shownCols := some shown, preds := some predCells, pie := some pieC,
        bar := some barC, table := some (selectCols df7 table_cols) }

/-- Lines 20-104: one full run on an uploaded file. `direct` is the outcome
of the initial `read_csv`/`read_excel`, `retry2` the outcome of the
`read_excel(..., skiprows=2)` retry; `none` models the parser raising.
Every raise is caught by the single top-level handler and shown as one
formatted message. -/
def runPipeline (direct retry2 : Option Table) (clf : Classifier) : Output :=
  match direct with
  | none => { err := some (.exception .parseError) }
  | some raw =>
    let df0 := stripCols raw
    match if (header df0).contains "Details" then Except.ok df0
          else match retry2 with
               | none => Except.error Exc.parseError
               | some r => Except.ok (stripCols r) with
    | .error e => { err := some (.exception e) }
    | .ok df1 =>
      let shown := header df1
      if (header df1).contains "Details" then processTable clf df1 shown
      else { shownCols := some shown, err := some .missingDetails }

/-! ## Concrete inputs used to instantiate the theorems -/

/-- A trivial classifier: constant string label, degenerate distribution. -/
def clfW : Classifier := ⟨.strs (fun _ => "Other"), fun _ => [1]⟩

/-- The spec's 3-row scenario table
(`Details,bug_type,Logical_Issue` with no nulls). -/
def scenarioT : Table :=
  [("Details", [Cell.str "null pointer crash", Cell.str "button misaligned",
    Cell.str "timeout on save"]),
   ("bug_type", [Cell.str "Server", Cell.str "UI", Cell.str "Server"]),
   ("Logical_Issue", [Cell.str "yes", Cell.str "no", Cell.str "yes"])]

/-- A parse result with no `Details` column. -/
def tNoDetails : Table := [("X", [Cell.str "a"])]

/-- A second parse result (the skip-2-rows retry) with no `Details` column. -/
def tNoDetails2 : Table := [("Y", [Cell.str "b"])]

/-- A table with `Details` and `bug_type` but no `Logical_Issue`. -/
def tNoLI : Table :=
  [("Details", [Cell.str "a", Cell.str "b"]),
   ("bug_type", [Cell.str "UI", Cell.str "UI"])]

/-- A table with `Details` and `Logical_Issue` but no `bug_type`. -/
def tNoBT : Table :=
  [("Details", [Cell.str "a"]), ("Logical_Issue", [Cell.str "yes"])]

/-- A table carrying both an `S.No` and a `Bug ID` column. -/
def tDup : Table :=
  [("S.No", [Cell.int 7]), ("Bug ID", [Cell.int 9]), ("Details", [Cell.str "a"]),
   ("bug_type", [Cell.str "UI"]), ("Logical_Issue", [Cell.str "yes"])]

/-- A table with nulls in `Details` (rows 2 and 4 are dropped). -/
def tNulls : Table :=
  [("Details", [Cell.str "a", Cell.null, Cell.str "c", Cell.null]),
   ("bug_type", [Cell.str "UI", Cell.str "DB", Cell.str "Server", Cell.str "DB"]),
   ("Logical_Issue", [Cell.str "yes", Cell.str "yes", Cell.str "no", Cell.str "no"])]

/-! ## Basic table lemmas -/

@[simp] theorem getCol_nil (m : String) : getCol ([] : Table) m = none := rfl

@[simp] theorem getCol_cons (c : String × List Cell) (rest : Table) (m : String) :
    getCol (c :: rest) m = if c.1 = m then some c.2 else getCol rest m := by
  by_cases h : c.1 = m <;>
    simp [getCol, List.find?_cons_of_pos, List.find?_cons_of_neg, h]

@[simp] theorem header_nil : header ([] : Table) = [] := rfl

@[simp] theorem header_cons (c : String × List Cell) (rest : Table) :
    header (c :: rest) = c.1 :: header rest := rfl

@[simp] theorem setCol_nil (n : String) (vs : List Cell) :
    setCol ([] : Table) n vs = [(n, vs)] := rfl

@[simp] theorem setCol_cons (c : String × List Cell) (rest : Table) (n : String)
    (vs : List Cell) :
    setCol (c :: rest) n vs =
      if c.1 = n then (n, vs) :: rest else c :: setCol rest n vs := by
  by_cases h : c.1 = n <;> simp [setCol, h]

@[simp] theorem renameCol_nil (old nw : String) :
    renameCol ([] : Table) old nw = [] := rfl

@[simp] theorem renameCol_cons (c : String × List Cell) (rest : Table) (old nw : String) :
    renameCol (c :: rest) old nw =
      (if c.1 = old then (nw, c.2) else c) :: renameCol rest old nw := by
  by_cases h : c.1 = old <;> simp [renameCol, h]

@[simp] theorem filterRows_nil (mask : List Bool) :
    filterRows ([] : Table) mask = [] := rfl

@[simp] theorem filterRows_cons (c : String × List Cell) (rest : Table) (mask : List Bool) :
    filterRows (c :: rest) mask = (c.1, applyMask c.2 mask) :: filterRows rest mask := rfl

theorem getCol_setCol_self (t : Table) (n : String) (vs : List Cell) :
    getCol (setCol t n vs) n = some vs := by
  induction t with
  | nil => simp
  | cons c rest ih =>
    by_cases h : c.1 = n
    · simp [h]
    · simp [h, ih]

theorem getCol_setCol_ne (t : Table) (n m : String) (vs : List Cell) (h : m ≠ n) :
    getCol (setCol t n vs) m = getCol t m := by
  induction t with
  | nil => simp [Ne.symm h]
  | cons c rest ih =>
    by_cases hc : c.1 = n
    · have hcm : ¬c.1 = m := by rw [hc]; exact Ne.symm h
      simp [hc, Ne.symm h, hcm]
    · by_cases hm : c.1 = m
      · simp [hc, hm, h, Ne.symm h]
      · simp [hc, hm, ih]

theorem mem_header_setCol (t : Table) (n m : String) (vs : List Cell) :
    m ∈ header (setCol t n vs) ↔ m ∈ header t ∨ m = n := by
  induction t with
  | nil => simp [eq_comm]
  | cons c rest ih =>
    by_cases hc : c.1 = n
    · simp [hc]; tauto
    · simp [hc, ih]; tauto

theorem header_setCol_of_mem (t : Table) (n : String) (vs : List Cell)
    (h : n ∈ header t) : header (setCol t n vs) = header t := by
  induction t with
  | nil => simp at h
  | cons c rest ih =>
    by_cases hc : c.1 = n
    · simp [hc]
    · have h' : n ∈ header rest := by
        rcases List.mem_cons.mp h with h1 | h1
        · exact absurd h1.symm hc
        · exact h1
      simp [hc, ih h']

theorem getCol_renameCol_ne (t : Table) (old nw m : String)
    (hm : m ≠ old) (hn : m ≠ nw) :
    getCol (renameCol t old nw) m = getCol t m := by
  induction t with
  | nil => simp
  | cons c rest ih =>
    by_cases hc : c.1 = old
    · have hcm : ¬c.1 = m := by rw [hc]; exact Ne.symm hm
      simp [hc, Ne.symm hn, Ne.symm hm, hcm, ih]
    · by_cases hcm : c.1 = m
      · simp [hc, hcm, hm]
      · simp [hc, hcm, ih]

theorem mem_header_renameCol_ne (t : Table) (old nw m : String)
    (hm : m ≠ old) (hn : m ≠ nw) :
    m ∈ header (renameCol t old nw) ↔ m ∈ header t := by
  induction t with
  | nil => simp
  | cons c rest ih =>
    by_cases hc : c.1 = old
    · have hcm : ¬m = c.1 := by rw [hc]; exact hm
      simp [hc, Ne.symm hn, hn, hm, hcm, ih]
    · simp [hc, ih]

theorem header_filterRows (t : Table) (mask : List Bool) :
    header (filterRows t mask) = header t := by
  simp [filterRows, header]

theorem getCol_filterRows (t : Table) (mask : List Bool) (m : String) :
    getCol (filterRows t mask) m = (getCol t m).map (fun cs => applyMask cs mask) := by
  induction t with
  | nil => simp
  | cons c rest ih =>
    by_cases hc : c.1 = m
    · simp [hc]
    · simp [hc, ih]

theorem contains_iff (l : List String) (a : String) : l.contains a = true ↔ a ∈ l :=
  List.elem_iff

theorem getCol_eq_none (t : Table) (m : String) : getCol t m = none ↔ m ∉ header t := by
  induction t with
  | nil => simp
  | cons c rest ih =>
    by_cases hc : c.1 = m
    · simp [hc]
    · have hmc : ¬m = c.1 := fun hh => hc hh.symm
      simp [hc, ih, hmc]

theorem getCol_isSome_of_mem (t : Table) (m : String) (h : m ∈ header t) :
    ∃ cs, getCol t m = some cs := by
  cases hg : getCol t m with
  | none => exact absurd h ((getCol_eq_none t m).mp hg)
  | some cs => exact ⟨cs, rfl⟩

theorem applyMask_map (cs : List Cell) (p : Cell → Bool) :
    applyMask cs (cs.map p) = cs.filter p := by
  induction cs with
  | nil => rfl
  | cons c rest ih =>
    by_cases h : p c <;> simp [applyMask, List.filter_cons, h, ih]

theorem length_filter_add (cs : List Cell) (p : Cell → Bool) :
    (cs.filter p).length + (cs.filter (fun c => !(p c))).length = cs.length := by
  induction cs with
  | nil => rfl
  | cons c rest ih =>
    by_cases h : p c <;> simp [List.filter_cons, h] <;> omega

theorem getCol_filter_key (t : Table) (n m : String) :
    getCol (t.filter (fun c => c.1 == n)) m = if m = n then getCol t m else none := by
  induction t with
  | nil => simp
  | cons c rest ih =>
    by_cases hm : m = n
    · subst hm
      by_cases hc : c.1 = m <;> simp [List.filter_cons, hc, ih]
    · by_cases hc : c.1 = n
      · have hcm : ¬c.1 = m := by rw [hc]; exact fun hh => hm hh.symm
        have hnm : ¬n = m := fun hh => hm hh.symm
        simp [List.filter_cons, hc, hcm, hm, hnm, ih]
      · simp [List.filter_cons, hc, hm, ih]

theorem getCol_append (t1 t2 : Table) (m : String) :
    getCol (t1 ++ t2) m = (getCol t1 m).orElse (fun _ => getCol t2 m) := by
  induction t1 with
  | nil => simp [Option.orElse]
  | cons c rest ih =>
    by_cases hc : c.1 = m <;> simp [hc, ih, Option.orElse]

theorem getCol_selectCols (t : Table) (ns : List String) (m : String) :
    getCol (selectCols t ns) m = if m ∈ ns then getCol t m else none := by
  induction ns with
  | nil => simp [selectCols]
  | cons n rest ih =>
    simp only [selectCols, List.flatMap_cons] at ih ⊢
    rw [getCol_append, getCol_filter_key]
    by_cases hm : m = n
    · subst hm
      cases hD : getCol t m <;> simp [hD, ih, Option.orElse]
    · simp [hm, ih, Option.orElse]

theorem count_header_setCol_ne (t : Table) (n m : String) (vs : List Cell) (h : m ≠ n) :
    (header (setCol t n vs)).count m = (header t).count m := by
  induction t with
  | nil => simp [h]
  | cons c rest ih =>
    by_cases hc : c.1 = n
    · simp [hc, List.count_cons, ih]
    · simp [hc, List.count_cons, ih]

theorem count_header_renameCol (t : Table) (old nw : String) (h : nw ≠ old) :
    (header (renameCol t old nw)).count nw =
      (header t).count nw + (header t).count old := by
  induction t with
  | nil => simp
  | cons c rest ih =>
    by_cases hc : c.1 = old
    · subst hc
      simp [List.count_cons, ih, h]
      omega
    · have hco : (c.1 == old) = false := by
        simp only [beq_eq_false_iff_ne]
        exact hc
      simp [renameCol_cons, hc, List.count_cons, ih, hco]
      omega

theorem count_header_filter_key (t : Table) (n m : String) :
    (header (t.filter (fun c => c.1 == n))).count m =
      if m = n then (header t).count m else 0 := by
  by_cases hm : m = n
  · subst hm
    simp only [if_pos rfl]
    induction t with
    | nil => simp
    | cons c rest ih =>
      by_cases hc : c.1 = m
      · simp [List.filter_cons, hc, List.count_cons, ih]
      · have hmc : (m == c.1) = false := by
          simp only [beq_eq_false_iff_ne]
          exact fun hh => hc hh.symm
        simp [List.filter_cons, hc, List.count_cons, ih, hmc]
  · simp only [if_neg hm]
    induction t with
    | nil => simp
    | cons c rest ih =>
      by_cases hc : c.1 = n
      · have hmc : (m == c.1) = false := by
          simp only [beq_eq_false_iff_ne]
          rw [hc]
          exact hm
        have hnm : ¬n = m := fun hh => hm hh.symm
        simp [List.filter_cons, hc, List.count_cons, ih, hmc, hnm]
      · simp [List.filter_cons, hc, List.count_cons, ih]

theorem count_header_selectCols (t : Table) (ns : List String) (m : String) :
    (header (selectCols t ns)).count m = ns.count m * (header t).count m := by
  induction ns with
  | nil => simp [selectCols]
  | cons n rest ih =>
    simp only [selectCols, List.flatMap_cons, header, List.map_append,
      List.count_append] at ih ⊢
    have hblock := count_header_filter_key t n m
    simp only [header] at hblock
    rw [hblock]
    by_cases hm : m = n
    · subst hm
      simp [List.count_cons, ih]
      ring
    · have hmn : (m == n) = false := by
        simp only [beq_eq_false_iff_ne]
        exact hm
      simp [hm, List.count_cons, ih, hmn]

/-! ## Stage-transport lemmas: which columns each pipeline stage touches -/

theorem getCol_astypeStrDetails_ne (t : Table) (m : String) (h : m ≠ "Details") :
    getCol (astypeStrDetails t) m = getCol t m :=
  getCol_setCol_ne t "Details" m _ h

theorem getCol_astypeStrDetails_details (t : Table) :
    getCol (astypeStrDetails t) "Details" =
      some ((getColD t "Details").map (fun c => Cell.str (cellToStr c))) :=
  getCol_setCol_self t "Details" _

theorem mem_header_astypeStrDetails_ne (t : Table) (m : String) (h : m ≠ "Details") :
    m ∈ header (astypeStrDetails t) ↔ m ∈ header t := by
  rw [astypeStrDetails, mem_header_setCol]
  simp [h]

theorem getCol_deriveBugId_ne (t : Table) (m : String)
    (h1 : m ≠ "S.No") (h2 : m ≠ "Bug ID") :
    getCol (deriveBugId t) m = getCol t m := by
  unfold deriveBugId
  by_cases hs : (header t).contains "S.No"
  · simp only [hs, if_true]
    exact getCol_renameCol_ne t _ _ m h1 h2
  · by_cases hb : (header t).contains "Bug ID"
    · have hs' : "S.No" ∉ header t := by simpa using hs
      have hb' : "Bug ID" ∈ header t := by simpa using hb
      simp [hs', hb']
    · simp only [hs, hb, if_false, Bool.false_eq_true]
      exact getCol_setCol_ne t _ m _ h2

theorem mem_header_deriveBugId_ne (t : Table) (m : String)
    (h1 : m ≠ "S.No") (h2 : m ≠ "Bug ID") :
    m ∈ header (deriveBugId t) ↔ m ∈ header t := by
  unfold deriveBugId
  by_cases hs : (header t).contains "S.No"
  · simp only [hs, if_true]
    exact mem_header_renameCol_ne t _ _ m h1 h2
  · by_cases hb : (header t).contains "Bug ID"
    · have hs' : "S.No" ∉ header t := by simpa using hs
      have hb' : "Bug ID" ∈ header t := by simpa using hb
      simp [hs', hb']
    · simp only [hs, hb, if_false, Bool.false_eq_true]
      rw [mem_header_setCol]
      simp [h2]

theorem getCol_addPredictions_ne (clf : Classifier) (t : Table) (m : String)
    (h1 : m ≠ "Predicted Category") (h2 : m ≠ "Confidence Score") :
    getCol (addPredictions clf t) m = getCol t m := by
  unfold addPredictions
  rw [getCol_setCol_ne _ _ _ _ h2, getCol_setCol_ne _ _ _ _ h1]

theorem mem_header_addPredictions_ne (clf : Classifier) (t : Table) (m : String)
    (h1 : m ≠ "Predicted Category") (h2 : m ≠ "Confidence Score") :
    m ∈ header (addPredictions clf t) ↔ m ∈ header t := by
  unfold addPredictions
  rw [mem_header_setCol, mem_header_setCol]
  simp [h1, h2]

theorem getCol_addLogicIssue_ne (t : Table) (m : String) (h : m ≠ "Logic-level Issue") :
    getCol (addLogicIssue t) m = getCol t m := by
  unfold addLogicIssue
  by_cases hl : (header t).contains "Logical_Issue" <;>
    simp only [hl, if_true, if_false, Bool.false_eq_true] <;>
    exact getCol_setCol_ne t _ m _ h

theorem getCol_addLogicIssue_self (t : Table) :
    getCol (addLogicIssue t) "Logic-level Issue" =
      some (if (header t).contains "Logical_Issue" then getColD t "Logical_Issue"
            else List.replicate (nRows t) (Cell.str "N/A")) := by
  unfold addLogicIssue
  by_cases hl : (header t).contains "Logical_Issue" <;>
    simp only [hl, if_true, if_false, Bool.false_eq_true] <;>
    exact getCol_setCol_self t _ _

theorem getCol_composeFrame_other (clf : Classifier) (t : Table) (m : String)
    (h1 : m ≠ "Details") (h2 : m ≠ "S.No") (h3 : m ≠ "Bug ID")
    (h4 : m ≠ "Predicted Category") (h5 : m ≠ "Confidence Score")
    (h6 : m ≠ "Logic-level Issue") :
    getCol (composeFrame clf t) m =
      (getCol t m).map (fun cs => applyMask cs (detailsMask t)) := by
  unfold composeFrame dropnaDetails
  rw [getCol_addLogicIssue_ne _ _ h6, getCol_addPredictions_ne _ _ _ h4 h5,
    getCol_deriveBugId_ne _ _ h2 h3, getCol_astypeStrDetails_ne _ _ h1,
    getCol_filterRows]

theorem mem_header_composeFrame_other (clf : Classifier) (t : Table) (m : String)
    (h1 : m ≠ "Details") (h2 : m ≠ "S.No") (h3 : m ≠ "Bug ID")
    (h4 : m ≠ "Predicted Category") (h5 : m ≠ "Confidence Score")
    (h6 : m ≠ "Logic-level Issue") :
    m ∈ header (composeFrame clf t) ↔ m ∈ header t := by
  unfold composeFrame addLogicIssue dropnaDetails
  have step :
      m ∈ header (addPredictions clf (deriveBugId (astypeStrDetails (filterRows t (detailsMask t)))))
        ↔ m ∈ header t := by
    rw [mem_header_addPredictions_ne _ _ _ h4 h5, mem_header_deriveBugId_ne _ _ h2 h3,
      mem_header_astypeStrDetails_ne _ _ h1, header_filterRows]
  by_cases hl :
      (header (addPredictions clf (deriveBugId (astypeStrDetails
        (filterRows t (detailsMask t)))))).contains "Logical_Issue" <;>
    simp only [hl, if_true, if_false, Bool.false_eq_true] <;>
    rw [mem_header_setCol] <;> simp [h6, step]

theorem getColD_chain_details (t : Table) :
    getColD (deriveBugId (astypeStrDetails (dropnaDetails t))) "Details" =
      (applyMask (getColD t "Details") (detailsMask t)).map
        (fun c => Cell.str (cellToStr c)) := by
  unfold getColD
  rw [getCol_deriveBugId_ne _ _ (by decide) (by decide), getCol_astypeStrDetails_details]
  unfold dropnaDetails getColD
  rw [getCol_filterRows]
  cases hD : getCol t "Details" with
  | none => simp [applyMask]
  | some cs => simp

theorem cellToStr_str (s : String) : cellToStr (Cell.str s) = s := rfl

theorem detailsStrsOf_chain (t : Table) :
    detailsStrsOf (deriveBugId (astypeStrDetails (dropnaDetails t))) =
      (applyMask (getColD t "Details") (detailsMask t)).map cellToStr := by
  unfold detailsStrsOf
  rw [getColD_chain_details, List.map_map]
  simp [Function.comp, cellToStr]

theorem mem_of_getCol_some (t : Table) (m : String) (cs : List Cell)
    (h : getCol t m = some cs) : m ∈ header t := by
  by_contra hh
  rw [← getCol_eq_none t m] at hh
  simp [h] at hh

theorem getCol_chain_details (t : Table) :
    getCol (deriveBugId (astypeStrDetails (dropnaDetails t))) "Details" =
      some ((applyMask (getColD t "Details") (detailsMask t)).map
        (fun c => Cell.str (cellToStr c))) := by
  rw [getCol_deriveBugId_ne _ _ (by decide) (by decide), getCol_astypeStrDetails_details]
  unfold dropnaDetails getColD
  rw [getCol_filterRows]
  cases hD : getCol t "Details" with
  | none => simp [applyMask]
  | some cs => simp

theorem getCol_composeFrame_details (clf : Classifier) (t : Table) :
    getCol (composeFrame clf t) "Details" =
      some ((applyMask (getColD t "Details") (detailsMask t)).map
        (fun c => Cell.str (cellToStr c))) := by
  unfold composeFrame
  rw [getCol_addLogicIssue_ne _ _ (by decide),
    getCol_addPredictions_ne _ _ _ (by decide) (by decide), getCol_chain_details]

theorem getCol_composeFrame_conf (clf : Classifier) (t : Table) :
    getCol (composeFrame clf t) "Confidence Score" =
      some (((applyMask (getColD t "Details") (detailsMask t)).map cellToStr).map
        (confidenceCell clf)) := by
  unfold composeFrame
  rw [getCol_addLogicIssue_ne _ _ (by decide)]
  unfold addPredictions
  rw [getCol_setCol_self, detailsStrsOf_chain]

theorem getCol_composeFrame_pred (clf : Classifier) (t : Table) :
    getCol (composeFrame clf t) "Predicted Category" =
      some (((applyMask (getColD t "Details") (detailsMask t)).map cellToStr).map
        (predictedCell clf)) := by
  unfold composeFrame
  rw [getCol_addLogicIssue_ne _ _ (by decide)]
  unfold addPredictions
  rw [getCol_setCol_ne _ _ _ _ (by decide), getCol_setCol_self, detailsStrsOf_chain]

theorem getCol_composeFrame_bugtype (clf : Classifier) (t : Table) (bt : List Cell)
    (h : getCol t "bug_type" = some bt) :
    getCol (composeFrame clf t) "bug_type" = some (applyMask bt (detailsMask t)) := by
  rw [getCol_composeFrame_other clf t _ (by decide) (by decide) (by decide) (by decide)
    (by decide) (by decide), h]
  rfl

theorem getCol_composeFrame_LI (clf : Classifier) (t : Table) (li : List Cell)
    (h : getCol t "Logical_Issue" = some li) :
    getCol (composeFrame clf t) "Logical_Issue" = some (applyMask li (detailsMask t)) := by
  rw [getCol_composeFrame_other clf t _ (by decide) (by decide) (by decide) (by decide)
    (by decide) (by decide), h]
  rfl

theorem getCol_composeFrame_logiclevel_present (clf : Classifier) (t : Table)
    (li : List Cell) (h : getCol t "Logical_Issue" = some li) :
    getCol (composeFrame clf t) "Logic-level Issue" =
      some (applyMask li (detailsMask t)) := by
  unfold composeFrame
  rw [getCol_addLogicIssue_self]
  have hmem : "Logical_Issue" ∈
      header (addPredictions clf (deriveBugId (astypeStrDetails (dropnaDetails t)))) := by
    rw [mem_header_addPredictions_ne _ _ _ (by decide) (by decide),
      mem_header_deriveBugId_ne _ _ (by decide) (by decide),
      mem_header_astypeStrDetails_ne _ _ (by decide)]
    unfold dropnaDetails
    rw [header_filterRows]
    exact mem_of_getCol_some t _ li h
  have hcont := (contains_iff _ "Logical_Issue").mpr hmem
  rw [hcont]
  simp only [eq_self_iff_true, if_true]
  unfold getColD
  rw [getCol_addPredictions_ne _ _ _ (by decide) (by decide),
    getCol_deriveBugId_ne _ _ (by decide) (by decide),
    getCol_astypeStrDetails_ne _ _ (by decide)]
  unfold dropnaDetails
  rw [getCol_filterRows, h]
  rfl

/-! ## Reduction lemmas for the pipeline driver -/

theorem processTable_missing_bugtype (clf : Classifier) (df1 : Table) (shown : List String)
    (h : getCol (composeFrame clf df1) "bug_type" = none) :
    processTable clf df1 shown =
      { shownCols := some shown,
        preds := some ((detailsStrsOf (deriveBugId (astypeStrDetails
          (dropnaDetails df1)))).map (predictedCell clf)),
        err := some (.exception (.keyError "bug_type")) } := by
  simp only [processTable]
  rw [h]

theorem processTable_missing_LI (clf : Classifier) (df1 : Table) (shown : List String)
    (bt : List Cell)
    (hb : getCol (composeFrame clf df1) "bug_type" = some bt)
    (hl : getCol (composeFrame clf df1) "Logical_Issue" = none) :
    processTable clf df1 shown =
      { shownCols := some shown,
        preds := some ((detailsStrsOf (deriveBugId (astypeStrDetails
          (dropnaDetails df1)))).map (predictedCell clf)),
        pie := some (valueCounts bt),
        err := some (.exception (.keyError "Logical_Issue")) } := by
  simp only [processTable]
  rw [hb, hl]

theorem processTable_success (clf : Classifier) (df1 : Table) (shown : List String)
    (bt li : List Cell)
    (hb : getCol (composeFrame clf df1) "bug_type" = some bt)
    (hl : getCol (composeFrame clf df1) "Logical_Issue" = some li) :
    processTable clf df1 shown =
      { shownCols := some shown,
        preds := some ((detailsStrsOf (deriveBugId (astypeStrDetails
          (dropnaDetails df1)))).map (predictedCell clf)),
        pie := some (valueCounts bt),
        bar := some (valueCounts (applyMask bt (logicYesMask li))),
        table := some (selectCols (composeFrame clf df1) table_cols),
        err := none } := by
  have hbar : getColD (filterRows (composeFrame clf df1) (logicYesMask li)) "bug_type" =
      applyMask bt (logicYesMask li) := by
    unfold getColD
    rw [getCol_filterRows, hb]
    rfl
  simp only [processTable, hb, hl]
  rw [hbar]

theorem runPipeline_none_direct (r : Option Table) (clf : Classifier) :
    runPipeline none r clf = { err := some (.exception .parseError) } := rfl

theorem runPipeline_direct (d : Table) (r : Option Table) (clf : Classifier)
    (hd : (header (stripCols d)).contains "Details" = true) :
    runPipeline (some d) r clf = processTable clf (stripCols d) (header (stripCols d)) := by
  simp only [runPipeline, hd, if_true]

theorem runPipeline_retry_fail (d : Table) (clf : Classifier)
    (hd : (header (stripCols d)).contains "Details" = false) :
    runPipeline (some d) none clf = { err := some (.exception .parseError) } := by
  simp only [runPipeline, hd, Bool.false_eq_true, if_false]

theorem runPipeline_retry (d rt : Table) (clf : Classifier)
    (hd : (header (stripCols d)).contains "Details" = false)
    (hr : (header (stripCols rt)).contains "Details" = true) :
    runPipeline (some d) (some rt) clf =
      processTable clf (stripCols rt) (header (stripCols rt)) := by
  simp only [runPipeline, hd, hr, Bool.false_eq_true, if_false, if_true]

theorem runPipeline_missing (d rt : Table) (clf : Classifier)
    (hd : (header (stripCols d)).contains "Details" = false)
    (hr : (header (stripCols rt)).contains "Details" = false) :
    runPipeline (some d) (some rt) clf =
      { shownCols := some (header (stripCols rt)), err := some .missingDetails } := by
  simp only [runPipeline, hd, hr, Bool.false_eq_true, if_false]

/-! ## Numeric bounds: rounding and row maxima -/

theorem pyRound_nonneg (q : ℚ) (h : 0 ≤ q) : 0 ≤ pyRound q := by
  have h0 : (0 : ℤ) ≤ ⌊q⌋ := Int.floor_nonneg.mpr h
  unfold pyRound
  split_ifs <;> omega

theorem pyRound_le (q : ℚ) (B : ℤ) (h : q ≤ B) : pyRound q ≤ B := by
  have hf : ⌊q⌋ ≤ B := by
    have := Int.floor_mono h
    simpa using this
  have hlt : 1 / 2 ≤ q - ⌊q⌋ → ⌊q⌋ + 1 ≤ B := by
    intro hh
    have h1 : (⌊q⌋ : ℚ) < q := by linarith
    have h2 : (⌊q⌋ : ℚ) < (B : ℚ) := lt_of_lt_of_le h1 h
    have h3 : ⌊q⌋ < B := by exact_mod_cast h2
    omega
  unfold pyRound
  split_ifs with h1 h2 h3
  · exact hf
  · exact hlt (le_of_lt h2)
  · exact hf
  · exact hlt (by linarith)

theorem round2_nonneg (q : ℚ) (h : 0 ≤ q) : 0 ≤ round2 q := by
  unfold round2
  have h1 : 0 ≤ pyRound (q * 100) := pyRound_nonneg _ (by linarith)
  have h2 : (0 : ℚ) ≤ (pyRound (q * 100) : ℚ) := by exact_mod_cast h1
  linarith

theorem round2_le_one (q : ℚ) (h : q ≤ 1) : round2 q ≤ 1 := by
  unfold round2
  have h1 : pyRound (q * 100) ≤ 100 := pyRound_le _ 100 (by push_cast; linarith)
  have h2 : (pyRound (q * 100) : ℚ) ≤ 100 := by exact_mod_cast h1
  linarith

theorem foldl_max_le (ps : List ℚ) (a B : ℚ) (ha : a ≤ B) (hb : ∀ x ∈ ps, x ≤ B) :
    ps.foldl max a ≤ B := by
  induction ps generalizing a with
  | nil => exact ha
  | cons x xs ih =>
    exact ih (max a x) (max_le ha (hb x (List.mem_cons_self _ _)))
      (fun y hy => hb y (List.mem_cons_of_mem x hy))

theorem le_foldl_max (ps : List ℚ) (a : ℚ) : a ≤ ps.foldl max a := by
  induction ps generalizing a with
  | nil => exact le_refl a
  | cons x xs ih => exact le_trans (le_max_left a x) (ih (max a x))

theorem rowMax_bounds (l : List ℚ) (hne : l ≠ [])
    (hb : ∀ p ∈ l, 0 ≤ p ∧ p ≤ 1) : 0 ≤ rowMax l ∧ rowMax l ≤ 1 := by
  cases l with
  | nil => exact absurd rfl hne
  | cons p ps =>
    constructor
    · exact le_trans (hb p (List.mem_cons_self _ _)).1 (le_foldl_max ps p)
    · exact foldl_max_le ps p 1 (hb p (List.mem_cons_self _ _)).2
        (fun y hy => (hb y (List.mem_cons_of_mem p hy)).2)

theorem confidence_bounds (clf : Classifier) (s : String)
    (hne : clf.proba s ≠ []) (hb : ∀ p ∈ clf.proba s, 0 ≤ p ∧ p ≤ 1) :
    0 ≤ round2 (rowMax (clf.proba s)) ∧ round2 (rowMax (clf.proba s)) ≤ 1 := by
  obtain ⟨h0, h1⟩ := rowMax_bounds _ hne hb
  exact ⟨round2_nonneg _ h0, round2_le_one _ h1⟩

theorem round2_one : round2 1 = 1 := by
  unfold round2 pyRound
  have h : ((1 : ℚ) * 100) = ((100 : ℤ) : ℚ) := by norm_num
  rw [h, Int.floor_intCast, if_pos (by norm_num)]
  norm_num

/-! ## Claim theorems -/

/-- C1: for every uploaded file whose `Details` column is absent both in the
direct parse and in the skip-two-rows retry parse, the run shows the explicit
missing-column error naming `Details` and renders no predictions, no result
table and no charts. -/
theorem C1_missing_details_explicit_error (d rt : Table) (clf : Classifier)
    (hd : "Details" ∉ header (stripCols d)) (hr : "Details" ∉ header (stripCols rt)) :
    runPipeline (some d) (some rt) clf =
      { shownCols := some (header (stripCols rt)), err := some .missingDetails,
        preds := none, pie := none, bar := none, table := none } := by
  have hd' : (header (stripCols d)).contains "Details" = false := by
    rw [Bool.eq_false_iff]
    exact fun hh => hd ((contains_iff _ _).mp hh)
  have hr' : (header (stripCols rt)).contains "Details" = false := by
    rw [Bool.eq_false_iff]
    exact fun hh => hr ((contains_iff _ _).mp hh)
  exact runPipeline_missing d rt clf hd' hr'

/-- Witness for C1 at a concrete upload with no `Details` column anywhere. -/
theorem C1_missing_details_explicit_error_witness :
    runPipeline (some tNoDetails) (some tNoDetails2) clfW =
      { shownCols := some ["Y"], err := some .missingDetails,
        preds := none, pie := none, bar := none, table := none } :=
  (C1_missing_details_explicit_error tNoDetails tNoDetails2 clfW
    (by decide) (by decide)).trans (by decide)

/-- C3: when the table passes the `Details` check but the `bug_type` or the
`Logical_Issue` column is missing, the run ends with a caught exception shown
as the single formatted error message, and no result table (and no bar chart)
is rendered; the pipeline is a total function, so no failure is fatal to the
process and nothing is retried. -/
theorem C3_missing_optional_column_surfaced (d : Table) (rt : Option Table)
    (clf : Classifier)
    (hD : (header (stripCols d)).contains "Details" = true)
    (hmiss : "bug_type" ∉ header (stripCols d) ∨
      "Logical_Issue" ∉ header (stripCols d)) :
    ∃ e : Exc, (runPipeline (some d) rt clf).err = some (.exception e) ∧
      (runPipeline (some d) rt clf).table = none ∧
      (runPipeline (some d) rt clf).bar = none := by
  rw [runPipeline_direct d rt clf hD]
  by_cases hbt : "bug_type" ∈ header (stripCols d)
  · have hli : "Logical_Issue" ∉ header (stripCols d) := by
      rcases hmiss with h | h
      · exact absurd hbt h
      · exact h
    obtain ⟨bt, hb⟩ := getCol_isSome_of_mem _ _ hbt
    have hb' := getCol_composeFrame_bugtype clf (stripCols d) bt hb
    have hl' : getCol (composeFrame clf (stripCols d)) "Logical_Issue" = none := by
      rw [getCol_eq_none, mem_header_composeFrame_other clf _ _ (by decide) (by decide)
        (by decide) (by decide) (by decide) (by decide)]
      exact hli
    rw [processTable_missing_LI clf _ _ _ hb' hl']
    exact ⟨.keyError "Logical_Issue", rfl, rfl, rfl⟩
  · have hb' : getCol (composeFrame clf (stripCols d)) "bug_type" = none := by
      rw [getCol_eq_none, mem_header_composeFrame_other clf _ _ (by decide) (by decide)
        (by decide) (by decide) (by decide) (by decide)]
      exact hbt
    rw [processTable_missing_bugtype clf _ _ hb']
    exact ⟨.keyError "bug_type", rfl, rfl, rfl⟩

/-- Witness for C3 at a concrete table lacking `bug_type`. -/
theorem C3_missing_optional_column_surfaced_witness :
    ∃ e : Exc,
      (runPipeline (some tNoBT) none clfW).err = some (.exception e) ∧
      (runPipeline (some tNoBT) none clfW).table = none ∧
      (runPipeline (some tNoBT) none clfW).bar = none :=
  C3_missing_optional_column_surfaced tNoBT none clfW (by decide)
    (Or.inl (by decide))

/-- C10: when the table has `Details` and `bug_type` but no `Logical_Issue`,
the pie chart is rendered and then the bar-chart stage raises, so the run
shows the pie chart, the caught error message, and neither the bar chart nor
the result table. -/
theorem C10_pie_rendered_then_bar_raises (d : Table) (rt : Option Table)
    (clf : Classifier) (bt : List Cell)
    (hD : (header (stripCols d)).contains "Details" = true)
    (hb : getCol (stripCols d) "bug_type" = some bt)
    (hli : "Logical_Issue" ∉ header (stripCols d)) :
    runPipeline (some d) rt clf =
      { shownCols := some (header (stripCols d)),
        preds := some (((applyMask (getColD (stripCols d) "Details")
          (detailsMask (stripCols d))).map cellToStr).map (predictedCell clf)),
        pie := some (valueCounts (applyMask bt (detailsMask (stripCols d)))),
        bar := none, table := none,
        err := some (.exception (.keyError "Logical_Issue")) } := by
  rw [runPipeline_direct d rt clf hD]
  have hb' := getCol_composeFrame_bugtype clf (stripCols d) bt hb
  have hl' : getCol (composeFrame clf (stripCols d)) "Logical_Issue" = none := by
    rw [getCol_eq_none, mem_header_composeFrame_other clf _ _ (by decide) (by decide)
      (by decide) (by decide) (by decide) (by decide)]
    exact hli
  rw [processTable_missing_LI clf _ _ _ hb' hl', detailsStrsOf_chain]

/-- Witness for C10 at a concrete table with `bug_type` but no `Logical_Issue`. -/
theorem C10_pie_rendered_then_bar_raises_witness :
    runPipeline (some tNoLI) none clfW =
      { shownCols := some ["Details", "bug_type"],
        preds := some [Cell.str "Other", Cell.str "Other"],
        pie := some [(Cell.str "UI", 2)],
        bar := none, table := none,
        err := some (.exception (.keyError "Logical_Issue")) } :=
  (C10_pie_rendered_then_bar_raises tNoLI none clfW [Cell.str "UI", Cell.str "UI"]
    (by decide) (by decide) (by decide)).trans (by decide)

/-- C2: on the success path the pie aggregate is the `value_counts` of the
raw pre-existing `bug_type` column (over the rows surviving the null-Details
filter) — not of the predicted category — and the bar aggregate is the
`value_counts` of `bug_type` restricted to the surviving rows whose
`Logical_Issue` value lowercases to "yes". The spec's 3-row scenario is the
witness instance. -/
theorem C2_aggregates_from_raw_bug_type (d : Table) (rt : Option Table)
    (clf : Classifier) (bt li : List Cell)
    (hD : (header (stripCols d)).contains "Details" = true)
    (hb : getCol (stripCols d) "bug_type" = some bt)
    (hl : getCol (stripCols d) "Logical_Issue" = some li) :
    (runPipeline (some d) rt clf).pie =
      some (valueCounts (applyMask bt (detailsMask (stripCols d)))) ∧
    (runPipeline (some d) rt clf).bar =
      some (valueCounts (applyMask (applyMask bt (detailsMask (stripCols d)))
        (logicYesMask (applyMask li (detailsMask (stripCols d)))))) := by
  rw [runPipeline_direct d rt clf hD,
    processTable_success clf _ _ _ _ (getCol_composeFrame_bugtype clf _ bt hb)
      (getCol_composeFrame_LI clf _ li hl)]
  exact ⟨rfl, rfl⟩

/-- Witness for C2 at the spec's 3-row scenario: pie = {Server: 2, UI: 1},
bar = {Server: 2}, and the synthesized Bug IDs are [1, 2, 3]. -/
theorem C2_aggregates_from_raw_bug_type_witness :
    (runPipeline (some scenarioT) none clfW).pie =
      some [(Cell.str "Server", 2), (Cell.str "UI", 1)] ∧
    (runPipeline (some scenarioT) none clfW).bar =
      some [(Cell.str "Server", 2)] ∧
    getCol ((runPipeline (some scenarioT) none clfW).table.getD []) "Bug ID" =
      some [Cell.int 1, Cell.int 2, Cell.int 3] := by
  obtain ⟨h1, h2⟩ := C2_aggregates_from_raw_bug_type scenarioT none clfW
    [Cell.str "Server", Cell.str "UI", Cell.str "Server"]
    [Cell.str "yes", Cell.str "no", Cell.str "yes"]
    (by decide) (by decide) (by decide)
  exact ⟨h1.trans (by decide), h2.trans (by decide), by decide⟩

/-- C4: the identifier derivation renames an existing `S.No` column to
`Bug ID`; otherwise, when no `Bug ID` column exists, it synthesizes a dense
1-based sequence 1..N in row order (N ≥ 0, the number of rows of the frame it
is applied to, which in the pipeline is the null-Details-filtered frame); and
it is the identity on a table that already has a `Bug ID` column (and no
`S.No`). -/
theorem C4_bug_id_derivation (t : Table) :
    ("S.No" ∈ header t → deriveBugId t = renameCol t "S.No" "Bug ID") ∧
    ("S.No" ∉ header t → "Bug ID" ∉ header t →
      getCol (deriveBugId t) "Bug ID" =
        some ((List.range (nRows t)).map (fun i => Cell.int ((i : Int) + 1)))) ∧
    ("S.No" ∉ header t → "Bug ID" ∈ header t → deriveBugId t = t) := by
  refine ⟨?_, ?_, ?_⟩
  · intro h
    unfold deriveBugId
    rw [if_pos ((contains_iff _ _).mpr h)]
  · intro h1 h2
    unfold deriveBugId
    rw [if_neg (fun hh => h1 ((contains_iff _ _).mp hh)),
      if_neg (fun hh => h2 ((contains_iff _ _).mp hh))]
    exact getCol_setCol_self t _ _
  · intro h1 h2
    unfold deriveBugId
    rw [if_neg (fun hh => h1 ((contains_iff _ _).mp hh)),
      if_pos ((contains_iff _ _).mpr h2)]

/-- Witness for C4: synthesis on a 1-row table without identifiers, rename
when `S.No` is present, and identity on a table that already has `Bug ID`. -/
theorem C4_bug_id_derivation_witness :
    getCol (deriveBugId [("Details", [Cell.str "a"])]) "Bug ID" =
      some [Cell.int 1] ∧
    deriveBugId [("S.No", [Cell.int 7])] =
      renameCol [("S.No", [Cell.int 7])] "S.No" "Bug ID" ∧
    deriveBugId [("Bug ID", [Cell.int 5]), ("Details", [Cell.str "a"])] =
      [("Bug ID", [Cell.int 5]), ("Details", [Cell.str "a"])] := by
  refine ⟨?_, ?_, ?_⟩
  · exact ((C4_bug_id_derivation [("Details", [Cell.str "a"])]).2.1
      (by decide) (by decide)).trans (by decide)
  · exact (C4_bug_id_derivation [("S.No", [Cell.int 7])]).1 (by decide)
  · exact (C4_bug_id_derivation [("Bug ID", [Cell.int 5]),
      ("Details", [Cell.str "a"])]).2.2 (by decide) (by decide)

/-- C6: numeric class codes are mapped through the fixed table
{0: UI, 1: API, 2: DB, 3: Server, 4: Other}, a numeric code outside 0..4
renders as its string form unchanged, and string labels are used unchanged. -/
theorem C6_label_mapping (n : Int) (f : String → Int) (g : String → String)
    (p : String → List ℚ) (s : String) :
    (mapCategory 0 = "UI" ∧ mapCategory 1 = "API" ∧ mapCategory 2 = "DB" ∧
      mapCategory 3 = "Server" ∧ mapCategory 4 = "Other") ∧
    (n ∉ ([0, 1, 2, 3, 4] : List Int) → mapCategory n = toString n) ∧
    predictedCell ⟨.nums f, p⟩ s = .str (mapCategory (f s)) ∧
    predictedCell ⟨.strs g, p⟩ s = .str (g s) := by
  refine ⟨by decide, ?_, rfl, rfl⟩
  intro hn
  simp only [List.mem_cons, List.mem_singleton, not_or] at hn
  obtain ⟨h0, h1, h2, h3, h4⟩ := hn
  have e0 : ((0 : Int) == n) = false := by
    simp only [beq_eq_false_iff_ne]
    exact fun hh => h0 hh.symm
  have e1 : ((1 : Int) == n) = false := by
    simp only [beq_eq_false_iff_ne]
    exact fun hh => h1 hh.symm
  have e2 : ((2 : Int) == n) = false := by
    simp only [beq_eq_false_iff_ne]
    exact fun hh => h2 hh.symm
  have e3 : ((3 : Int) == n) = false := by
    simp only [beq_eq_false_iff_ne]
    exact fun hh => h3 hh.symm
  have e4 : ((4 : Int) == n) = false := by
    simp only [beq_eq_false_iff_ne]
    exact fun hh => h4.1 hh.symm
  simp [mapCategory, category_map, List.find?, e0, e1, e2, e3, e4]

/-- Witness for C6: the unmapped code 7 renders as "7", and the numeric and
string model shapes produce the stated cells. -/
theorem C6_label_mapping_witness :
    mapCategory 3 = "Server" ∧ mapCategory 7 = "7" ∧
    predictedCell ⟨.nums (fun _ => 7), fun _ => [1]⟩ "x" = .str "7" := by
  obtain ⟨hfix, hout, hnum, _⟩ :=
    C6_label_mapping 7 (fun _ => 7) (fun _ => "s") (fun _ => [1]) "x"
  have h7 : mapCategory 7 = "7" := (hout (by decide)).trans (by decide)
  exact ⟨hfix.2.2.2.1, h7, hnum.trans (by rw [h7])⟩

/-- C5: on the success path, the result table's `Confidence Score` column is,
row by row, the maximum class probability returned by `predict_proba` for
that row's `Details` text, rounded to 2 decimals; and whenever the model
returns a nonempty list of probabilities in [0, 1] (what `predict_proba`
produces), every such score lies in [0.00, 1.00]. -/
theorem C5_confidence_scores (d : Table) (rt : Option Table) (clf : Classifier)
    (bt li : List Cell)
    (hD : (header (stripCols d)).contains "Details" = true)
    (hb : getCol (stripCols d) "bug_type" = some bt)
    (hl : getCol (stripCols d) "Logical_Issue" = some li)
    (hp : ∀ s, clf.proba s ≠ [] ∧ ∀ p ∈ clf.proba s, 0 ≤ p ∧ p ≤ 1) :
    ∃ rtab, (runPipeline (some d) rt clf).table = some rtab ∧
      getCol rtab "Confidence Score" =
        some (((applyMask (getColD (stripCols d) "Details")
          (detailsMask (stripCols d))).map cellToStr).map
            (fun s => Cell.rat (round2 (rowMax (clf.proba s))))) ∧
      ∀ s : String, 0 ≤ round2 (rowMax (clf.proba s)) ∧
        round2 (rowMax (clf.proba s)) ≤ 1 := by
  rw [runPipeline_direct d rt clf hD,
    processTable_success clf _ _ _ _ (getCol_composeFrame_bugtype clf _ bt hb)
      (getCol_composeFrame_LI clf _ li hl)]
  refine ⟨_, rfl, ?_, fun s => confidence_bounds clf s (hp s).1 (hp s).2⟩
  rw [getCol_selectCols, if_pos (by decide), getCol_composeFrame_conf]
  rfl

/-- Witness for C5 at the 3-row scenario with the degenerate distribution
[1]: every confidence score is 1.00. -/
theorem C5_confidence_scores_witness :
    ∃ rtab, (runPipeline (some scenarioT) none clfW).table = some rtab ∧
      getCol rtab "Confidence Score" =
        some [Cell.rat 1, Cell.rat 1, Cell.rat 1] ∧
      ∀ s : String, 0 ≤ round2 (rowMax (clfW.proba s)) ∧
        round2 (rowMax (clfW.proba s)) ≤ 1 := by
  obtain ⟨rtab, h1, h2, h3⟩ := C5_confidence_scores scenarioT none clfW
    [Cell.str "Server", Cell.str "UI", Cell.str "Server"]
    [Cell.str "yes", Cell.str "no", Cell.str "yes"]
    (by decide) (by decide) (by decide)
    (fun s => ⟨by simp [clfW], fun p hp => by
      simp [clfW] at hp
      norm_num [hp]⟩)
  have hcells : applyMask (getColD (stripCols scenarioT) "Details")
      (detailsMask (stripCols scenarioT)) =
      [Cell.str "null pointer crash", Cell.str "button misaligned",
        Cell.str "timeout on save"] := by decide
  rw [hcells] at h2
  refine ⟨rtab, h1, h2.trans ?_, h3⟩
  simp [clfW, rowMax, round2_one, cellToStr]

/-- C7: rows with a null `Details` cell are excluded from every downstream
stage: the result table's `Details` column is exactly the non-null input
`Details` cells, in input order and coerced to strings; its row count is the
input row count minus the null-`Details` row count; and the predictions are
computed from exactly those surviving rows. -/
theorem C7_null_details_rows_excluded (d : Table) (rt : Option Table)
    (clf : Classifier) (bt li : List Cell)
    (hD : (header (stripCols d)).contains "Details" = true)
    (hb : getCol (stripCols d) "bug_type" = some bt)
    (hl : getCol (stripCols d) "Logical_Issue" = some li) :
    ∃ rtab dts, (runPipeline (some d) rt clf).table = some rtab ∧
      getCol rtab "Details" = some dts ∧
      dts = ((getColD (stripCols d) "Details").filter
        (fun c => !c.isNull)).map (fun c => Cell.str (cellToStr c)) ∧
      dts.length = (getColD (stripCols d) "Details").length -
        ((getColD (stripCols d) "Details").filter (fun c => c.isNull)).length ∧
      (runPipeline (some d) rt clf).preds =
        some (((getColD (stripCols d) "Details").filter
          (fun c => !c.isNull)).map (fun c => predictedCell clf (cellToStr c))) := by
  rw [runPipeline_direct d rt clf hD,
    processTable_success clf _ _ _ _ (getCol_composeFrame_bugtype clf _ bt hb)
      (getCol_composeFrame_LI clf _ li hl)]
  have hmask : applyMask (getColD (stripCols d) "Details")
      (detailsMask (stripCols d)) =
      (getColD (stripCols d) "Details").filter (fun c => !c.isNull) := by
    unfold detailsMask
    exact applyMask_map _ _
  refine ⟨_, ((getColD (stripCols d) "Details").filter
    (fun c => !c.isNull)).map (fun c => Cell.str (cellToStr c)), rfl, ?_, rfl, ?_, ?_⟩
  · rw [getCol_selectCols, if_pos (by decide), getCol_composeFrame_details, hmask]
  · rw [List.length_map]
    have := length_filter_add (getColD (stripCols d) "Details") (fun c => !c.isNull)
    simp only [Bool.not_not] at this
    omega
  · rw [detailsStrsOf_chain, hmask, List.map_map]
    rfl

/-- Witness for C7 at a 4-row table whose rows 2 and 4 have null `Details`. -/
theorem C7_null_details_rows_excluded_witness :
    ∃ rtab dts, (runPipeline (some tNulls) none clfW).table = some rtab ∧
      getCol rtab "Details" = some dts ∧
      dts = ((getColD (stripCols tNulls) "Details").filter
        (fun c => !c.isNull)).map (fun c => Cell.str (cellToStr c)) ∧
      dts.length = (getColD (stripCols tNulls) "Details").length -
        ((getColD (stripCols tNulls) "Details").filter (fun c => c.isNull)).length ∧
      (runPipeline (some tNulls) none clfW).preds =
        some (((getColD (stripCols tNulls) "Details").filter
          (fun c => !c.isNull)).map (fun c => predictedCell clfW (cellToStr c))) :=
  C7_null_details_rows_excluded tNulls none clfW
    [Cell.str "UI", Cell.str "DB", Cell.str "Server", Cell.str "DB"]
    [Cell.str "yes", Cell.str "yes", Cell.str "no", Cell.str "no"]
    (by decide) (by decide) (by decide)

/-- C8: the composed frame's `Logic-level Issue` column is copied verbatim
from the `Logical_Issue` values of the surviving rows when that column
exists, and is the constant sentinel "N/A" (one per row) when it does not
(in which case the bar-chart stage later raises, so the frame is composed
but never displayed). -/
theorem C8_logic_level_issue_copy_or_sentinel (t d : Table) (rt : Option Table)
    (clf : Classifier) (bt li : List Cell) :
    ("Logical_Issue" ∉ header t →
      getCol (addLogicIssue t) "Logic-level Issue" =
        some (List.replicate (nRows t) (Cell.str "N/A"))) ∧
    ((header (stripCols d)).contains "Details" = true →
      getCol (stripCols d) "bug_type" = some bt →
      getCol (stripCols d) "Logical_Issue" = some li →
      ∃ rtab, (runPipeline (some d) rt clf).table = some rtab ∧
        getCol rtab "Logic-level Issue" =
          some (applyMask li (detailsMask (stripCols d)))) := by
  constructor
  · intro h
    rw [getCol_addLogicIssue_self,
      if_neg (fun hh => h ((contains_iff _ _).mp hh))]
  · intro hD hb hl
    rw [runPipeline_direct d rt clf hD,
      processTable_success clf _ _ _ _ (getCol_composeFrame_bugtype clf _ bt hb)
        (getCol_composeFrame_LI clf _ li hl)]
    refine ⟨_, rfl, ?_⟩
    rw [getCol_selectCols, if_pos (by decide)]
    exact getCol_composeFrame_logiclevel_present clf _ li hl

/-- Witness for C8: the sentinel on a frame without `Logical_Issue`, and the
verbatim copy on the 3-row scenario. -/
theorem C8_logic_level_issue_copy_or_sentinel_witness :
    getCol (addLogicIssue tNoLI) "Logic-level Issue" =
      some [Cell.str "N/A", Cell.str "N/A"] ∧
    ∃ rtab, (runPipeline (some scenarioT) none clfW).table = some rtab ∧
      getCol rtab "Logic-level Issue" =
        some [Cell.str "yes", Cell.str "no", Cell.str "yes"] := by
  obtain ⟨h1, h2⟩ := C8_logic_level_issue_copy_or_sentinel tNoLI scenarioT none clfW
    [Cell.str "Server", Cell.str "UI", Cell.str "Server"]
    [Cell.str "yes", Cell.str "no", Cell.str "yes"]
  obtain ⟨rtab, ht, hcol⟩ := h2 (by decide) (by decide) (by decide)
  exact ⟨(h1 (by decide)).trans (by decide), rtab, ht, hcol.trans (by decide)⟩

/-- C9: when the input has both an `S.No` and a `Bug ID` column (one each),
the unconditional rename of `S.No` produces a frame with two columns labeled
`Bug ID`, and the final `df[table_cols]` selection picks up the duplicated
label: the displayed result table carries two `Bug ID` columns. -/
theorem C9_duplicate_bug_id_label (d : Table) (rt : Option Table)
    (clf : Classifier) (bt li : List Cell)
    (hD : (header (stripCols d)).contains "Details" = true)
    (hb : getCol (stripCols d) "bug_type" = some bt)
    (hl : getCol (stripCols d) "Logical_Issue" = some li)
    (hsno : (header (stripCols d)).count "S.No" = 1)
    (hbid : (header (stripCols d)).count "Bug ID" = 1) :
    ∃ rtab, (runPipeline (some d) rt clf).table = some rtab ∧
      (header rtab).count "Bug ID" = 2 := by
  rw [runPipeline_direct d rt clf hD,
    processTable_success clf _ _ _ _ (getCol_composeFrame_bugtype clf _ bt hb)
      (getCol_composeFrame_LI clf _ li hl)]
  refine ⟨_, rfl, ?_⟩
  rw [count_header_selectCols]
  have hcount2 : (header (composeFrame clf (stripCols d))).count "Bug ID" = 2 := by
    have hDmem : "Details" ∈ header (stripCols d) := (contains_iff _ _).mp hD
    have h3 : header (astypeStrDetails (dropnaDetails (stripCols d))) =
        header (stripCols d) := by
      unfold astypeStrDetails dropnaDetails
      rw [header_setCol_of_mem]
      · exact header_filterRows _ _
      · rw [header_filterRows]
        exact hDmem
    have hsmem : "S.No" ∈ header (astypeStrDetails (dropnaDetails (stripCols d))) := by
      rw [h3]
      have : 0 < (header (stripCols d)).count "S.No" := by omega
      exact List.count_pos_iff.mp this
    have h4 : deriveBugId (astypeStrDetails (dropnaDetails (stripCols d))) =
        renameCol (astypeStrDetails (dropnaDetails (stripCols d))) "S.No" "Bug ID" := by
      unfold deriveBugId
      rw [if_pos ((contains_iff _ _).mpr hsmem)]
    have h5 : (header (deriveBugId (astypeStrDetails
        (dropnaDetails (stripCols d))))).count "Bug ID" = 2 := by
      rw [h4, count_header_renameCol _ _ _ (by decide), h3, hsno, hbid]
    unfold composeFrame
    have h6 : (header (addPredictions clf (deriveBugId (astypeStrDetails
        (dropnaDetails (stripCols d)))))).count "Bug ID" = 2 := by
      unfold addPredictions
      rw [count_header_setCol_ne _ _ _ _ (by decide),
        count_header_setCol_ne _ _ _ _ (by decide)]
      exact h5
    unfold addLogicIssue
    by_cases hc : (header (addPredictions clf (deriveBugId (astypeStrDetails
        (dropnaDetails (stripCols d)))))).contains "Logical_Issue" <;>
      simp only [hc, if_true, if_false, Bool.false_eq_true] <;>
      rw [count_header_setCol_ne _ _ _ _ (by decide)] <;>
      exact h6
  rw [hcount2]
  decide

/-- Witness for C9 at a concrete table carrying both `S.No` and `Bug ID`. -/
theorem C9_duplicate_bug_id_label_witness :
    ∃ rtab, (runPipeline (some tDup) none clfW).table = some rtab ∧
      (header rtab).count "Bug ID" = 2 :=
  C9_duplicate_bug_id_label tDup none clfW [Cell.str "UI"] [Cell.str "yes"]
    (by decide) (by decide) (by decide) (by decide) (by decide)

end BugApp
